import Mathlib

/-!
Verification of the metric analysis engine of the page-speed-hooks library:
the layout-shift session-window aggregator of `useCLS` and the interaction
phase-breakdown analyzer of `useINP`, together with their issue classifiers,
deduplication logic and aggregate statistics.

Numbers coming from the host runtime (times in milliseconds, shift
magnitudes, latencies) are modelled as rationals.  DOM-dependent helpers
(selector resolution, computed-style inspection) are abstracted: selector
resolution results appear as `Option String` fields already resolved, and
the DOM-inspecting CLS issue classifier `detectIssueType` of useCLS.ts is a
parameter of the state-transition function, since its result depends on the
live document and every claim treated here is independent of that result.
-/

namespace PageSpeed

/-- Rating bands used by both hooks (good / needs-improvement / poor). -/
inductive Rating where
  | good
  | needsImprovement
  | poor
deriving DecidableEq, Repr

/-! ## CLS data model (useCLS.ts, types imported from ./types) -/

/-- One side of a shift attribution rectangle (x, y, width, height). -/
structure Rect where
  x : ℚ
  y : ℚ
  width : ℚ
  height : ℚ
deriving DecidableEq, Repr

/-- LayoutShiftAttribution: `node` is the selector resolved by
getElementSelector (null becomes `none`), plus the two rects. -/
structure LayoutShiftAttribution where
  node : Option String
  previousRect : Rect
  currentRect : Rect
deriving DecidableEq, Repr

/-- LayoutShiftEntry as normalized by the onCLS callback of useCLS.ts:
value, startTime, hadRecentInput, sources. -/
structure LayoutShiftEntry where
  value : ℚ
  startTime : ℚ
  hadRecentInput : Bool
  sources : List LayoutShiftAttribution
deriving DecidableEq, Repr

/-- CLSSessionWindow: value (sum of member magnitudes), member entries,
startTime of the first member, endTime of the last member. -/
structure CLSSessionWindow where
  value : ℚ
  entries : List LayoutShiftEntry
  startTime : ℚ
  endTime : ℚ
deriving DecidableEq, Repr

/-- The fresh window opened from a single entry, as in both branches of
buildSessionWindows that start a window. -/
def openWindow (entry : LayoutShiftEntry) : CLSSessionWindow :=
  { value := entry.value
    entries := [entry]
    startTime := entry.startTime
    endTime := entry.startTime }

/-- One iteration of the for-loop of buildSessionWindows (useCLS.ts,
lines 300-329).  The state is the pair of the already closed windows and
the currently open window (null is `none`). -/
def sessionStep (st : List CLSSessionWindow × Option CLSSessionWindow)
    (entry : LayoutShiftEntry) :
    List CLSSessionWindow × Option CLSSessionWindow :=
  if entry.hadRecentInput then st
  else
    match st with
    | (windows, none) => (windows, some (openWindow entry))
    | (windows, some currentWindow) =>
        let gap := entry.startTime - currentWindow.endTime
        let duration := entry.startTime - currentWindow.startTime
        if gap > 1000 ∨ duration > 5000 then
          (windows ++ [currentWindow], some (openWindow entry))
        else
          (windows, some { currentWindow with
            value := currentWindow.value + entry.value
            entries := currentWindow.entries ++ [entry]
            endTime := entry.startTime })

/-- Closing of the final open window at the end of buildSessionWindows. -/
def closeFinal (st : List CLSSessionWindow × Option CLSSessionWindow) :
    List CLSSessionWindow :=
  match st with
  | (windows, none) => windows
  | (windows, some w) => windows ++ [w]

/-- buildSessionWindows (useCLS.ts, lines 293-338): fold the loop body over
the entry list and close the final window.  The early return on an empty
input of the source is the same value the fold produces. -/
def buildSessionWindows (entries : List LayoutShiftEntry) :
    List CLSSessionWindow :=
  closeFinal (entries.foldl sessionStep ([], none))

/-- The shared shape of the four max-picking reduce callbacks of the
source (largest window, largest shift, longest entry, slowest
interaction): keep the incumbent unless the candidate is strictly
larger under the measure `f`. -/
def pickMaxBy {α : Type} (f : α → ℚ) (largest : Option α) (x : α) :
    Option α :=
  match largest with
  | none => some x
  | some l => if f x > f l then some x else some l

/-- A reduce with `pickMaxBy` starting from null. -/
def maxByQ {α : Type} (f : α → ℚ) (l : List α) : Option α :=
  l.foldl (pickMaxBy f) none

/-- The reduce of useCLS.ts lines 408-412 picking the window of maximal
value (strict comparison, so the first of equals wins). -/
def largestWindow (windows : List CLSSessionWindow) :
    Option CLSSessionWindow :=
  maxByQ (fun w => w.value) windows

/-- The reduce of useCLS.ts lines 415-419 picking the entry of maximal
value across all metric entries (no hadRecentInput filter in the source). -/
def largestShiftOf (entries : List LayoutShiftEntry) :
    Option LayoutShiftEntry :=
  maxByQ (fun e => e.value) entries

/-- getRating of useCLS.ts: good when at most 0.1, needs-improvement when
at most 0.25, else poor. -/
def getCLSRating (value : ℚ) : Rating :=
  if value ≤ 1/10 then Rating.good
  else if value ≤ 25/100 then Rating.needsImprovement
  else Rating.poor

/-! ## CLS issues and the callback state machine -/

/-- The closed set of CLS issue categories of useCLS.ts. -/
inductive CLSIssueType where
  | imageWithoutDimensions
  | unsizedMedia
  | dynamicContent
  | webFontShift
  | adEmbedShift
  | animationShift
deriving DecidableEq, Repr

/-- getSuggestion of useCLS.ts: fixed text per category, with the selector
(or its fallback word) interpolated where the source template does. -/
def getCLSSuggestion (t : CLSIssueType) (element : Option String) : String :=
  match t with
  | CLSIssueType.imageWithoutDimensions =>
      "Add width and height attributes to " ++ element.getD "images" ++
      ". Example: <img width=\"800\" height=\"600\" /> or use CSS aspect-ratio."
  | CLSIssueType.unsizedMedia =>
      "Specify dimensions for " ++ element.getD "media elements" ++
      " using width/height attributes or CSS aspect-ratio property."
  | CLSIssueType.dynamicContent =>
      "Reserve space for dynamically loaded content using min-height, skeleton screens, or CSS aspect-ratio on " ++
      element.getD "container" ++ "."
  | CLSIssueType.webFontShift =>
      "Use font-display: optional or preload fonts. Consider using size-adjust, ascent-override, descent-override CSS descriptors for fallback fonts."
  | CLSIssueType.adEmbedShift =>
      "Reserve space for ads/embeds with fixed dimensions. Use min-height on ad containers: .ad-container \x7b min-height: 250px; \x7d"
  | CLSIssueType.animationShift =>
      "Use transform-based animations instead of layout-affecting properties. Replace top/left/width/height with transform: translate() or scale()."

/-- CLSIssue: category, resolved element selector, contribution, suggestion
text and timestamp. -/
structure CLSIssue where
  type : CLSIssueType
  element : Option String
  contribution : ℚ
  suggestion : String
  timestamp : ℚ
deriving DecidableEq, Repr

/-- The deduplicating append of useCLS.ts lines 444-452: the new issue is
appended only when no tracked issue shares both element and type (the
source probes existence with a find over the list). -/
def recordCLSIssue (issues : List CLSIssue) (newIssue : CLSIssue) :
    List CLSIssue :=
  if issues.any (fun i =>
      decide (i.element = newIssue.element ∧ i.type = newIssue.type)) then
    issues
  else
    issues ++ [newIssue]

/-- Options of useCLS relevant to the analysis callback (threshold and the
debug flag only gate a console warning and are omitted). -/
structure CLSOptions where
  detectIssues : Bool
deriving DecidableEq, Repr

/-- Default options of the onCLS callback: detectIssues = true. -/
def defaultCLSOptions : CLSOptions :=
  { detectIssues := true }

/-- The observable state of useCLS: the snapshot fields of CLSState merged
with the entry/window/issue refs (the refs and the published snapshot agree
after every processed callback). -/
structure CLSStateM where
  cls : Option ℚ
  rating : Option Rating
  isLoading : Bool
  entries : List LayoutShiftEntry
  largestShift : Option LayoutShiftEntry
  sessionWindows : List CLSSessionWindow
  largestSessionWindow : Option CLSSessionWindow
  issues : List CLSIssue
  shiftCount : Nat
  hasPostInteractionShifts : Bool
deriving DecidableEq, Repr

/-- The initial CLS state (useCLS.ts lines 79-90), also the state produced
by reset (lines 272-290). -/
def initialCLSState : CLSStateM :=
  { cls := none
    rating := none
    isLoading := true
    entries := []
    largestShift := none
    sessionWindows := []
    largestSessionWindow := none
    issues := []
    shiftCount := 0
    hasPostInteractionShifts := false }

/-- One CLS metric callback payload: the stabilized value and the batch of
normalized layout-shift entries delivered with it. -/
structure CLSMetric where
  value : ℚ
  entries : List LayoutShiftEntry
deriving DecidableEq, Repr

/-- The body of the onCLS callback of useCLS.ts (lines 352-499): the entry
ref is overwritten with the delivered batch, session windows and the
largest shift are derived from that batch, at most one issue is recorded
from the largest shift, and the snapshot is republished.  `classify`
abstracts detectIssueType, whose result depends on the live document. -/
def processCLSMetric (opts : CLSOptions)
    (classify : LayoutShiftAttribution → CLSIssueType)
    (s : CLSStateM) (m : CLSMetric) : CLSStateM :=
  let metricEntries := m.entries
  let windows := buildSessionWindows metricEntries
  let lWindow := largestWindow windows
  let lShift := largestShiftOf metricEntries
  let issues :=
    match lShift with
    | none => s.issues
    | some ls =>
        if opts.detectIssues then
          match ls.sources with
          | [] => s.issues
          | source :: _ =>
              let issueType := classify source
              recordCLSIssue s.issues
                { type := issueType
                  element := source.node
                  contribution := ls.value
                  suggestion := getCLSSuggestion issueType source.node
                  timestamp := ls.startTime }
        else s.issues
  let hasPost := metricEntries.any
    (fun e => !e.hadRecentInput && decide (e.startTime > 500))
  { cls := some m.value
    rating := some (getCLSRating m.value)
    isLoading := false
    entries := metricEntries
    largestShift := lShift
    sessionWindows := windows
    largestSessionWindow := lWindow
    issues := issues
    shiftCount := metricEntries.length
    hasPostInteractionShifts := hasPost }

/-- One externally triggered operation on the CLS engine: a stabilized
metric callback or the reset entry point. -/
inductive CLSOp where
  | metric (m : CLSMetric)
  | reset

/-- Run a sequence of operations on the CLS engine from its initial
state. -/
def clsRun (opts : CLSOptions)
    (classify : LayoutShiftAttribution → CLSIssueType)
    (ops : List CLSOp) : CLSStateM :=
  ops.foldl
    (fun s op =>
      match op with
      | CLSOp.metric m => processCLSMetric opts classify s m
      | CLSOp.reset => initialCLSState)
    initialCLSState

/-! ## Spec-side mirror of the session-window grouping rule

The following two definitions transcribe the prose of the specification
(section 4.2): iterate the qualifying samples in order, open a window on
the first, close and reopen exactly when gap > 1000 or duration > 5000,
otherwise extend.  They are compared with `buildSessionWindows`, the
translation of the source loop, in the theorem for claim C2. -/

/-- Spec-side recursion over the qualifying samples after a window has
been opened. -/
def specWindowsAux (w : CLSSessionWindow) :
    List LayoutShiftEntry → List CLSSessionWindow
  | [] => [w]
  | e :: rest =>
      if e.startTime - w.endTime > 1000 ∨ e.startTime - w.startTime > 5000 then
        w :: specWindowsAux (openWindow e) rest
      else
        specWindowsAux
          { w with
            value := w.value + e.value
            entries := w.entries ++ [e]
            endTime := e.startTime } rest

/-- Spec-side aggregator: drop samples with hadRecentInput, open a window
on the first qualifying sample, then apply the close/extend rule. -/
def sessionWindowsSpec (l : List LayoutShiftEntry) : List CLSSessionWindow :=
  match l.filter (fun e => !e.hadRecentInput) with
  | [] => []
  | e :: rest => specWindowsAux (openWindow e) rest

/-! ## INP data model (useINP.ts) -/

/-- The three interaction kinds of useINP.ts (click / keypress / tap). -/
inductive INPInteractionType where
  | click
  | keypress
  | tap
deriving DecidableEq, Repr

/-- PhaseBreakdown: the three additive phases of one interaction. -/
structure INPPhaseBreakdown where
  inputDelay : ℚ
  processingDuration : ℚ
  presentationDelay : ℚ
deriving DecidableEq, Repr

/-- One attributed script cost, as consumed by detectIssueType and
getSuggestions of useINP.ts (sourceURL, duration, isThirdParty). -/
structure INPScriptAttribution where
  sourceURL : Option String
  duration : ℚ
  isThirdParty : Bool
deriving DecidableEq, Repr

/-- One tracked interaction of useINP.ts. -/
structure INPInteraction where
  id : String
  type : INPInteractionType
  latency : ℚ
  rating : Rating
  target : Option String
  startTime : ℚ
  phases : INPPhaseBreakdown
  scripts : List INPScriptAttribution
  longestEventType : Option String
deriving DecidableEq, Repr

/-- The closed set of INP issue categories of useINP.ts. -/
inductive INPIssueType where
  | longTask
  | excessiveDomSize
  | heavyEventHandler
  | renderBlockingResource
  | thirdPartyScript
  | layoutThrashing
  | forcedSynchronousLayout
  | highInputDelay
  | highProcessingDuration
  | highPresentationDelay
  | unoptimizedAnimation
deriving DecidableEq, Repr

/-- The phase label attached to an INP issue. -/
inductive INPIssuePhase where
  | inputDelay
  | processing
  | presentation
deriving DecidableEq, Repr

/-- INPIssue: category, element selector, contribution, dominant phase,
suggestion text and timestamp. -/
structure INPIssue where
  type : INPIssueType
  element : Option String
  contribution : ℚ
  phase : INPIssuePhase
  suggestion : String
  timestamp : ℚ
deriving DecidableEq, Repr

/-- Options of useINP relevant to the analysis callback (debug and
reportAllChanges only gate warnings and registration). -/
structure INPOptions where
  threshold : ℚ
  longTaskThreshold : ℚ
  minInteractionLatency : ℚ
  detectIssues : Bool
deriving DecidableEq, Repr

/-- Defaults destructured inside the onINP callback (useINP.ts lines
311-316): threshold 200, longTaskThreshold 50, minInteractionLatency 40,
detectIssues true. -/
def defaultINPOptions : INPOptions :=
  { threshold := 200
    longTaskThreshold := 50
    minInteractionLatency := 40
    detectIssues := true }

/-- getRating of useINP.ts: good when at most 200, needs-improvement when
at most 500, else poor. -/
def getINPRating (value : ℚ) : Rating :=
  if value ≤ 200 then Rating.good
  else if value ≤ 500 then Rating.needsImprovement
  else Rating.poor

/-- detectIssueType of useINP.ts (lines 139-165): first high input delay,
then heavy processing (split on an expensive third-party script), then
high presentation delay, otherwise no issue. -/
def detectIssueType (opts : INPOptions) (interaction : INPInteraction) :
    Option INPIssueType :=
  let phases := interaction.phases
  if phases.inputDelay > opts.longTaskThreshold then
    some INPIssueType.highInputDelay
  else if phases.processingDuration > opts.threshold * (6/10) then
    if interaction.scripts.any
        (fun sc => sc.isThirdParty && decide (sc.duration > 50)) then
      some INPIssueType.thirdPartyScript
    else
      some INPIssueType.heavyEventHandler
  else if phases.presentationDelay > opts.threshold * (4/10) then
    some INPIssueType.highPresentationDelay
  else
    none

/-- getSuggestionForIssue of useINP.ts: fixed text per category; the
element selector and the script URL are interpolated where the source
template does (the callback never passes a script URL). -/
def getSuggestionForIssue (t : INPIssueType) (element : Option String)
    (scriptURL : Option String) : String :=
  match t with
  | INPIssueType.longTask =>
      "Break up long tasks using setTimeout, requestIdleCallback, or scheduler.yield() to allow the browser to respond to interactions."
  | INPIssueType.excessiveDomSize =>
      "Reduce DOM size by lazy loading off-screen content, using content-visibility: auto, or virtualizing long lists."
  | INPIssueType.heavyEventHandler =>
      "Optimize event handler for " ++ element.getD "interaction target" ++
      ". Use requestAnimationFrame for visual updates and defer non-critical work."
  | INPIssueType.renderBlockingResource =>
      "Defer or async load render-blocking resources. Consider code splitting and lazy loading."
  | INPIssueType.thirdPartyScript =>
      "Third-party script " ++ scriptURL.getD "" ++
      " is impacting INP. Consider lazy loading, using a web worker, or facade pattern."
  | INPIssueType.layoutThrashing =>
      "Avoid reading layout properties (offsetHeight, getBoundingClientRect) followed by style changes. Batch DOM reads/writes."
  | INPIssueType.forcedSynchronousLayout =>
      "Avoid forcing synchronous layout by reading computed styles after modifying DOM. Use requestAnimationFrame."
  | INPIssueType.highInputDelay =>
      "Main thread was busy when interaction occurred. Reduce JavaScript execution during page load and idle times."
  | INPIssueType.highProcessingDuration =>
      "Event handlers are taking too long. Simplify handler logic, debounce rapid interactions, or move work to web workers."
  | INPIssueType.highPresentationDelay =>
      "Rendering is slow after handler completion. Reduce DOM size, simplify CSS selectors, or use CSS containment."
  | INPIssueType.unoptimizedAnimation =>
      "Use transform and opacity for animations instead of layout-affecting properties like width, height, top, left."

/-- One raw event-timing entry as consumed by the onINP callback.  The
target field carries the selector already resolved by getElementSelector
(missing or non-element targets are `none`); the name field is the event
name (a missing name is the empty string, as in the source fallback). -/
structure PerformanceEventTiming where
  startTime : ℚ
  processingStart : ℚ
  processingEnd : ℚ
  duration : ℚ
  name : String
  target : Option String
deriving DecidableEq, Repr

/-- The reduce of useINP.ts lines 322-331 picking the entry with the
longest duration (strict comparison, first of equals wins). -/
def longestEntry (entries : List PerformanceEventTiming) :
    Option PerformanceEventTiming :=
  maxByQ (fun e => e.duration) entries

/-- Substring test mirroring String.prototype.includes. -/
def stringContains (s t : String) : Bool :=
  decide ((s.splitOn t).length > 1)

/-- Interaction-kind classification of useINP.ts lines 347-354: a name
containing "key" is a keypress, else one containing "pointer" or "touch"
is a tap, else a click. -/
def classifyInteractionType (eventName : String) : INPInteractionType :=
  let lower := eventName.toLower
  if stringContains lower "key" then INPInteractionType.keypress
  else if stringContains lower "pointer" || stringContains lower "touch" then
    INPInteractionType.tap
  else INPInteractionType.click

/-- The phase breakdown of useINP.ts lines 334-339, computed exactly and
without clamping. -/
def computePhases (e : PerformanceEventTiming) : INPPhaseBreakdown :=
  { inputDelay := e.processingStart - e.startTime
    processingDuration := e.processingEnd - e.processingStart
    presentationDelay := e.duration - (e.processingEnd - e.startTime) }

/-- The interaction record built at useINP.ts lines 357-367.  `nonce`
stands for the Date.now() part of the generated id. -/
def mkInteraction (e : PerformanceEventTiming) (nonce : String) :
    INPInteraction :=
  { id := toString e.startTime ++ "-" ++ nonce
    type := classifyInteractionType e.name
    latency := e.duration
    rating := getINPRating e.duration
    target := e.target
    startTime := e.startTime
    phases := computePhases e
    scripts := []
    longestEventType := some e.name }

/-- The dominant-phase label computed at useINP.ts lines 383-387. -/
def issuePhaseOf (phases : INPPhaseBreakdown) : INPIssuePhase :=
  if phases.inputDelay > phases.processingDuration then
    INPIssuePhase.inputDelay
  else if phases.processingDuration > phases.presentationDelay then
    INPIssuePhase.processing
  else
    INPIssuePhase.presentation

/-- The deduplicating append of useINP.ts lines 392-400, identical in
shape to the CLS one. -/
def recordINPIssue (issues : List INPIssue) (newIssue : INPIssue) :
    List INPIssue :=
  if issues.any (fun i =>
      decide (i.element = newIssue.element ∧ i.type = newIssue.type)) then
    issues
  else
    issues ++ [newIssue]

/-- One entry of the script statistics map of useINP.ts (keyed by URL). -/
structure ScriptStat where
  url : String
  totalDuration : ℚ
  occurrences : Nat
  isThirdParty : Bool
deriving DecidableEq, Repr

/-- Stable insertion into a list sorted by descending totalDuration,
matching the comparator of calculateTopSlowScripts. -/
def insertByDuration (x : ScriptStat) :
    List ScriptStat → List ScriptStat
  | [] => [x]
  | y :: ys =>
      if x.totalDuration > y.totalDuration then x :: y :: ys
      else y :: insertByDuration x ys

/-- calculateTopSlowScripts of useINP.ts lines 287-293: sort the collected
script statistics by descending total duration and keep the first five.
Nothing in the source ever inserts into the statistics map, so the input
is always empty in a run. -/
def calculateTopSlowScripts (stats : List ScriptStat) : List ScriptStat :=
  (stats.foldl (fun acc x => insertByDuration x acc) []).take 5

/-- The observable state of useINP: the snapshot fields of INPState merged
with the interaction/issue/script refs. -/
structure INPStateM where
  inp : Option ℚ
  rating : Option Rating
  isLoading : Bool
  interactions : List INPInteraction
  slowestInteraction : Option INPInteraction
  slowestPhases : Option INPPhaseBreakdown
  issues : List INPIssue
  interactionCount : Nat
  slowInteractionCount : Nat
  averageLatency : Option ℚ
  goodInteractionPercentage : ℚ
  clickCount : Nat
  keypressCount : Nat
  tapCount : Nat
  scriptStats : List ScriptStat
  topSlowScripts : List ScriptStat
deriving DecidableEq, Repr

/-- The initial INP state (useINP.ts lines 69-83), also the state produced
by reset (lines 237-258). -/
def initialINPState : INPStateM :=
  { inp := none
    rating := none
    isLoading := true
    interactions := []
    slowestInteraction := none
    slowestPhases := none
    issues := []
    interactionCount := 0
    slowInteractionCount := 0
    averageLatency := none
    goodInteractionPercentage := 100
    clickCount := 0
    keypressCount := 0
    tapCount := 0
    scriptStats := []
    topSlowScripts := [] }

/-- One INP metric callback payload. -/
structure INPMetric where
  value : ℚ
  entries : List PerformanceEventTiming
deriving DecidableEq, Repr

/-- The reduce of useINP.ts lines 433-437 picking the slowest tracked
interaction (strict comparison, first of equals wins). -/
def slowestOf (interactions : List INPInteraction) : Option INPInteraction :=
  maxByQ (fun i => i.latency) interactions

/-- The body of the onINP callback of useINP.ts (lines 307-481): pick the
longest-duration entry, build the interaction record, append it to the
history when its latency reaches minInteractionLatency, classify and
deduplicate at most one issue when the latency exceeds the threshold,
recompute all running statistics from the full history, and republish the
snapshot. -/
def processINPMetric (opts : INPOptions) (s : INPStateM) (m : INPMetric)
    (nonce : String) : INPStateM :=
  let inpEntry := longestEntry m.entries
  let updated :=
    match inpEntry with
    | none => (s.interactions, s.issues)
    | some e =>
        let interaction := mkInteraction e nonce
        let interactions :=
          if interaction.latency ≥ opts.minInteractionLatency then
            s.interactions ++ [interaction]
          else
            s.interactions
        let issues :=
          if opts.detectIssues = true ∧ interaction.latency > opts.threshold then
            match detectIssueType opts interaction with
            | some issueType =>
                recordINPIssue s.issues
                  { type := issueType
                    element := interaction.target
                    contribution := interaction.latency
                    phase := issuePhaseOf interaction.phases
                    suggestion :=
                      getSuggestionForIssue issueType interaction.target none
                    timestamp := interaction.startTime }
            | none => s.issues
          else s.issues
        (interactions, issues)
  let allInteractions := updated.1
  let interactionCount : Nat := allInteractions.length
  let slowInteractionCount :=
    (allInteractions.filter (fun i => decide (i.latency > opts.threshold))).length
  let totalLatency := (allInteractions.map (fun i => i.latency)).sum
  let averageLatency :=
    if interactionCount > 0 then
      some (totalLatency / (interactionCount : ℚ))
    else none
  let goodCount :=
    (allInteractions.filter (fun i => decide (i.latency ≤ 200))).length
  let goodInteractionPercentage :=
    if interactionCount > 0 then
      ((goodCount : ℚ) / (interactionCount : ℚ)) * 100
    else (100 : ℚ)
  let slowest := slowestOf allInteractions
  { inp := some m.value
    rating := some (getINPRating m.value)
    isLoading := false
    interactions := allInteractions
    slowestInteraction := slowest
    slowestPhases := slowest.map (fun i => i.phases)
    issues := updated.2
    interactionCount := interactionCount
    slowInteractionCount := slowInteractionCount
    averageLatency := averageLatency
    goodInteractionPercentage := goodInteractionPercentage
    clickCount :=
      (allInteractions.filter
        (fun i => decide (i.type = INPInteractionType.click))).length
    keypressCount :=
      (allInteractions.filter
        (fun i => decide (i.type = INPInteractionType.keypress))).length
    tapCount :=
      (allInteractions.filter
        (fun i => decide (i.type = INPInteractionType.tap))).length
    scriptStats := s.scriptStats
    topSlowScripts := calculateTopSlowScripts s.scriptStats }

/-- recordInteraction of useINP.ts lines 261-284: the manual injection
entry point appends a synthetic interaction to the history ref without
republishing the snapshot (phases default to all-processing).  `now`
stands for performance.now() and `nonce` for the Date.now() id part. -/
def recordInteractionManual (s : INPStateM) (latency : ℚ)
    (target : Option String) (t : INPInteractionType) (now : ℚ)
    (nonce : String) : INPStateM :=
  { s with
    interactions := s.interactions ++
      [{ id := "manual-" ++ nonce
         type := t
         latency := latency
         rating := getINPRating latency
         target := target
         startTime := now
         phases :=
           { inputDelay := 0
             processingDuration := latency
             presentationDelay := 0 }
         scripts := []
         longestEventType := none }] }

/-- One externally triggered operation on the INP engine: a stabilized
metric callback, a manual interaction injection, or the reset entry
point. -/
inductive INPOp where
  | metric (m : INPMetric) (nonce : String)
  | record (latency : ℚ) (target : Option String) (t : INPInteractionType)
      (now : ℚ) (nonce : String)
  | reset

/-- Run a sequence of operations on the INP engine from its initial
state. -/
def inpRun (opts : INPOptions) (ops : List INPOp) : INPStateM :=
  ops.foldl
    (fun s op =>
      match op with
      | INPOp.metric m nonce => processINPMetric opts s m nonce
      | INPOp.record latency target t now nonce =>
          recordInteractionManual s latency target t now nonce
      | INPOp.reset => initialINPState)
    initialINPState

/-- The value held by the currently open window, zero when none is open. -/
def openValue : Option CLSSessionWindow → ℚ
  | none => 0
  | some w => w.value

/-- No two tracked CLS issues share both element and category. -/
def clsNoDup (issues : List CLSIssue) : Prop :=
  issues.Pairwise (fun a b => ¬(a.element = b.element ∧ a.type = b.type))

/-- No two tracked INP issues share both element and category. -/
def inpNoDup (issues : List INPIssue) : Prop :=
  issues.Pairwise (fun a b => ¬(a.element = b.element ∧ a.type = b.type))

/-- The good-percentage formula of useINP.ts lines 418-423 as a function
of the tracked interaction history. -/
def goodPctFormula (l : List INPInteraction) : ℚ :=
  if l.length > 0 then
    (((l.filter (fun i => decide (i.latency ≤ 200))).length : ℚ) /
      (l.length : ℚ)) * 100
  else (100 : ℚ)

/-! ## Concrete samples used in scenarios, witnesses and counterexamples -/

/-- A non-input shift sample at time 100 (spec scenario, claim C2). -/
def sampleAt100 : LayoutShiftEntry :=
  { value := 1/20, startTime := 100, hadRecentInput := false, sources := [] }

/-- A non-input shift sample at time 1300 (spec scenario, claim C2). -/
def sampleAt1300 : LayoutShiftEntry :=
  { value := 1/10, startTime := 1300, hadRecentInput := false, sources := [] }

/-- A non-input shift sample of value 0.05 at time 1000 (spec scenario,
claim C7). -/
def sampleAt1000 : LayoutShiftEntry :=
  { value := 1/20, startTime := 1000, hadRecentInput := false, sources := [] }

/-- A non-input shift sample of value 0.10 at time 1500 (spec scenario,
claim C7). -/
def sampleAt1500 : LayoutShiftEntry :=
  { value := 1/10, startTime := 1500, hadRecentInput := false, sources := [] }

/-- A non-input shift sample at time 0 (first batch of the claim C1
counterexample). -/
def shiftEarly : LayoutShiftEntry :=
  { value := 1, startTime := 0, hadRecentInput := false, sources := [] }

/-- A non-input shift sample at time 5000 (second batch of the claim C1
counterexample). -/
def shiftLate : LayoutShiftEntry :=
  { value := 2, startTime := 5000, hadRecentInput := false, sources := [] }

/-- An input-driven shift sample of value 0.5 (claim C7
counterexample). -/
def inputShift : LayoutShiftEntry :=
  { value := 1/2, startTime := 0, hadRecentInput := true, sources := [] }

/-- A non-input shift sample of value 0.1 (claim C7 counterexample). -/
def smallShift : LayoutShiftEntry :=
  { value := 1/10, startTime := 10, hadRecentInput := false, sources := [] }

/-- The interaction timing of the spec scenario: startTime 100,
processingStart 120, processingEnd 220, duration 200 (claim C4). -/
def specScenarioTiming : PerformanceEventTiming :=
  { startTime := 100, processingStart := 120, processingEnd := 220,
    duration := 200, name := "click", target := none }

/-- An inconsistent timing whose presentation delay comes out negative
(claim C4). -/
def inconsistentTiming : PerformanceEventTiming :=
  { startTime := 0, processingStart := 0, processingEnd := 150,
    duration := 100, name := "click", target := none }

/-- A raw event-timing entry of duration 100 (claims C5 and C10). -/
def fastEntry : PerformanceEventTiming :=
  { startTime := 0, processingStart := 10, processingEnd := 30,
    duration := 100, name := "click", target := none }

/-- A raw event-timing entry of duration 30, below the default minimum
interaction latency (claim C10). -/
def tinyEntry : PerformanceEventTiming :=
  { startTime := 0, processingStart := 1, processingEnd := 2,
    duration := 30, name := "click", target := none }

/-- A CLS issue record used to exercise deduplication (claim C6). -/
def dupCLSIssue : CLSIssue :=
  { type := CLSIssueType.dynamicContent, element := none,
    contribution := 1, suggestion := "", timestamp := 0 }

/-- An INP issue record used to exercise deduplication (claim C6). -/
def dupINPIssue : INPIssue :=
  { type := INPIssueType.heavyEventHandler, element := none,
    contribution := 300, phase := INPIssuePhase.processing,
    suggestion := "", timestamp := 0 }

/-- An interaction with empty scripts and a heavy processing phase
(claim C9 witness). -/
def heavyInteraction : INPInteraction :=
  { id := "i", type := INPInteractionType.click, latency := 300,
    rating := Rating.needsImprovement, target := none, startTime := 0,
    phases :=
      { inputDelay := 10, processingDuration := 250, presentationDelay := 40 },
    scripts := [], longestEventType := none }


/-! ## Spec-side mirror of the interaction issue decision order -/

/-- Transcription of the decision order stated in the specification
(section 4.5): input delay above the long-task threshold, then processing
above 60 percent of the latency threshold (split on a third-party script
costing more than 50 ms), then presentation above 40 percent of the
latency threshold, else nothing.  Compared with the source translation
`detectIssueType` in the theorem for claim C5. -/
def detectIssueTypeClaim (opts : INPOptions) (i : INPInteraction) :
    Option INPIssueType :=
  if i.phases.inputDelay > opts.longTaskThreshold then
    some INPIssueType.highInputDelay
  else if i.phases.processingDuration > 60/100 * opts.threshold then
    if i.scripts.any (fun sc => sc.isThirdParty && decide (sc.duration > 50)) then
      some INPIssueType.thirdPartyScript
    else
      some INPIssueType.heavyEventHandler
  else if i.phases.presentationDelay > 40/100 * opts.threshold then
    some INPIssueType.highPresentationDelay
  else
    none

/-! ## Helper lemmas about the session-window aggregator -/

theorem sessionStep_input (st : List CLSSessionWindow × Option CLSSessionWindow)
    (e : LayoutShiftEntry) (h : e.hadRecentInput = true) :
    sessionStep st e = st := by
  simp [sessionStep, h]

theorem foldl_sessionStep_filter (l : List LayoutShiftEntry)
    (st : List CLSSessionWindow × Option CLSSessionWindow) :
    (l.filter (fun e => !e.hadRecentInput)).foldl sessionStep st =
      l.foldl sessionStep st := by
  induction l generalizing st with
  | nil => rfl
  | cons e l ih =>
      by_cases h : e.hadRecentInput = true
      · simp [List.filter_cons, h, sessionStep_input st e h, ih]
      · simp only [Bool.not_eq_true] at h
        simp [List.filter_cons, h, ih]

theorem buildSessionWindows_filter (l : List LayoutShiftEntry) :
    buildSessionWindows (l.filter (fun e => !e.hadRecentInput)) =
      buildSessionWindows l := by
  unfold buildSessionWindows
  rw [foldl_sessionStep_filter]

theorem foldl_sessionStep_spec (l : List LayoutShiftEntry)
    (h : ∀ e ∈ l, e.hadRecentInput = false)
    (acc : List CLSSessionWindow) (w : CLSSessionWindow) :
    closeFinal (l.foldl sessionStep (acc, some w)) = acc ++ specWindowsAux w l := by
  induction l generalizing acc w with
  | nil => simp [closeFinal, specWindowsAux]
  | cons e l ih =>
      have he : e.hadRecentInput = false := h e (by simp)
      have hl : ∀ x ∈ l, x.hadRecentInput = false :=
        fun x hx => h x (by simp [hx])
      rw [List.foldl_cons]
      by_cases hc : e.startTime - w.endTime > 1000 ∨ e.startTime - w.startTime > 5000
      · have hstep : sessionStep (acc, some w) e =
            (acc ++ [w], some (openWindow e)) := by
          simp [sessionStep, he, hc]
        rw [hstep, ih hl, specWindowsAux, if_pos hc, List.append_assoc,
          List.singleton_append]
      · have hstep : sessionStep (acc, some w) e =
            (acc, some { w with
              value := w.value + e.value
              entries := w.entries ++ [e]
              endTime := e.startTime }) := by
          simp only [sessionStep, he, Bool.false_eq_true, if_false]
          rw [if_neg hc]
        rw [hstep, ih hl, specWindowsAux, if_neg hc]

theorem buildSessionWindows_eq_spec (l : List LayoutShiftEntry) :
    buildSessionWindows l = sessionWindowsSpec l := by
  unfold sessionWindowsSpec
  rw [← buildSessionWindows_filter]
  cases hf : l.filter (fun e => !e.hadRecentInput) with
  | nil => rfl
  | cons e rest =>
      have hmem : ∀ x ∈ e :: rest, x.hadRecentInput = false := by
        intro x hx
        have hx' : x ∈ l.filter (fun e => !e.hadRecentInput) := by
          rw [hf]; exact hx
        simpa using (List.mem_filter.mp hx').2
      have he : e.hadRecentInput = false := hmem e (by simp)
      have hstep : sessionStep ([], none) e = ([], some (openWindow e)) := by
        simp [sessionStep, he]
      unfold buildSessionWindows
      rw [List.foldl_cons, hstep]
      exact foldl_sessionStep_spec rest (fun x hx => hmem x (by simp [hx]))
        [] (openWindow e)

theorem closeFinal_value_sum
    (st : List CLSSessionWindow × Option CLSSessionWindow) :
    ((closeFinal st).map (fun w => w.value)).sum =
      (st.1.map (fun w => w.value)).sum + openValue st.2 := by
  obtain ⟨ws, ow⟩ := st
  cases ow <;> simp [closeFinal, openValue]

theorem foldl_sessionStep_value_sum (l : List LayoutShiftEntry)
    (st : List CLSSessionWindow × Option CLSSessionWindow) :
    ((l.foldl sessionStep st).1.map (fun w => w.value)).sum +
        openValue (l.foldl sessionStep st).2 =
      (st.1.map (fun w => w.value)).sum + openValue st.2 +
        (((l.filter (fun e => !e.hadRecentInput)).map (fun e => e.value)).sum) := by
  induction l generalizing st with
  | nil => simp
  | cons e l ih =>
      rw [List.foldl_cons]
      by_cases h : e.hadRecentInput = true
      · rw [sessionStep_input st e h]
        simp [List.filter_cons, h, ih st]
      · simp only [Bool.not_eq_true] at h
        obtain ⟨ws, ow⟩ := st
        cases ow with
        | none =>
            have hstep : sessionStep (ws, none) e = (ws, some (openWindow e)) := by
              simp [sessionStep, h]
            rw [hstep, ih]
            simp [List.filter_cons, h, openValue, openWindow]
            ring
        | some w =>
            by_cases hc : e.startTime - w.endTime > 1000 ∨
                e.startTime - w.startTime > 5000
            · have hstep : sessionStep (ws, some w) e =
                  (ws ++ [w], some (openWindow e)) := by
                simp [sessionStep, h, hc]
              rw [hstep, ih]
              simp [List.filter_cons, h, openValue, openWindow]
              ring
            · have hstep : sessionStep (ws, some w) e =
                  (ws, some { w with
                    value := w.value + e.value
                    entries := w.entries ++ [e]
                    endTime := e.startTime }) := by
                simp only [sessionStep, h, Bool.false_eq_true, if_false]
                rw [if_neg hc]
              rw [hstep, ih]
              simp [List.filter_cons, h, openValue]
              ring

theorem buildSessionWindows_value_sum (l : List LayoutShiftEntry) :
    ((buildSessionWindows l).map (fun w => w.value)).sum =
      ((l.filter (fun e => !e.hadRecentInput)).map (fun e => e.value)).sum := by
  unfold buildSessionWindows
  rw [closeFinal_value_sum]
  have := foldl_sessionStep_value_sum l ([], none)
  simpa [openValue] using this

/-! ## Helper lemmas about the max-picking reduces -/

theorem maxByQ_aux {α : Type} (f : α → ℚ) (l : List α) :
    ∀ (acc : Option α) (m : α), l.foldl (pickMaxBy f) acc = some m →
      ((acc = some m ∨ m ∈ l) ∧ (∀ e ∈ l, f e ≤ f m) ∧
        (∀ a, acc = some a → f a ≤ f m)) := by
  induction l with
  | nil =>
      intro acc m h
      simp only [List.foldl_nil] at h
      exact ⟨Or.inl h, by simp, fun a ha => by rw [h] at ha; cases ha; exact le_refl _⟩
  | cons e l ih =>
      intro acc m h
      rw [List.foldl_cons] at h
      obtain ⟨hmem, hle, hacc⟩ := ih (pickMaxBy f acc e) m h
      have hstep : ∀ b, pickMaxBy f acc e = some b →
          (f e ≤ f b ∧ (b = e ∨ acc = some b) ∧ ∀ a, acc = some a → f a ≤ f b) := by
        intro b hb
        cases acc with
        | none =>
            simp only [pickMaxBy, Option.some.injEq] at hb
            subst hb
            exact ⟨le_refl _, Or.inl rfl, fun a ha => by cases ha⟩
        | some a =>
            simp only [pickMaxBy] at hb
            by_cases hfa : f e > f a
            · rw [if_pos hfa] at hb
              cases hb
              exact ⟨le_refl _, Or.inl rfl,
                fun a' ha' => by cases ha'; exact le_of_lt hfa⟩
            · rw [if_neg hfa] at hb
              cases hb
              exact ⟨le_of_not_lt hfa, Or.inr rfl,
                fun a' ha' => by cases ha'; exact le_refl _⟩
      have hbval : ∀ b, pickMaxBy f acc e = some b → f b ≤ f m := by
        intro b hb
        rcases hmem with hb' | hm
        · rw [hb'] at hb; cases hb; exact le_refl _
        · exact hacc b hb
      refine ⟨?_, ?_, ?_⟩
      · rcases hmem with hb | hm
        · obtain ⟨_, hcase, _⟩ := hstep m hb
          rcases hcase with rfl | hacc'
          · exact Or.inr (by simp)
          · exact Or.inl hacc'
        · exact Or.inr (by simp [hm])
      · intro x hx
        rcases List.mem_cons.mp hx with rfl | hx'
        · cases hacc' : acc with
          | none =>
              have hb : pickMaxBy f acc x = some x := by
                rw [hacc']; rfl
              exact hbval x hb
          | some a =>
              by_cases hfa : f x > f a
              · have hb : pickMaxBy f acc x = some x := by
                  rw [hacc']; simp [pickMaxBy, hfa]
                exact hbval x hb
              · have hb : pickMaxBy f acc x = some a := by
                  rw [hacc']; simp [pickMaxBy, hfa]
                exact le_trans (le_of_not_lt hfa) (hbval a hb)
        · exact hle x hx'
      · intro a ha
        cases hb : pickMaxBy f acc e with
        | none =>
            rw [ha] at hb
            simp only [pickMaxBy] at hb
            split at hb <;> cases hb
        | some b =>
            obtain ⟨_, _, hup⟩ := hstep b hb
            exact le_trans (hup a ha) (hbval b hb)

theorem maxByQ_spec {α : Type} (f : α → ℚ) (l : List α) (m : α)
    (h : maxByQ f l = some m) : m ∈ l ∧ ∀ e ∈ l, f e ≤ f m := by
  obtain ⟨hmem, hle, _⟩ := maxByQ_aux f l none m h
  refine ⟨?_, hle⟩
  rcases hmem with hcontra | hm
  · cases hcontra
  · exact hm

/-! ## Helper lemmas about issue deduplication -/

theorem recordCLSIssue_eq_or_append (issues : List CLSIssue) (i : CLSIssue) :
    recordCLSIssue issues i = issues ∨
      recordCLSIssue issues i = issues ++ [i] := by
  unfold recordCLSIssue
  split
  · exact Or.inl rfl
  · exact Or.inr rfl

theorem recordINPIssue_eq_or_append (issues : List INPIssue) (i : INPIssue) :
    recordINPIssue issues i = issues ∨
      recordINPIssue issues i = issues ++ [i] := by
  unfold recordINPIssue
  split
  · exact Or.inl rfl
  · exact Or.inr rfl

theorem recordCLSIssue_of_dup (issues : List CLSIssue) (i : CLSIssue)
    (h : ∃ j ∈ issues, j.element = i.element ∧ j.type = i.type) :
    recordCLSIssue issues i = issues := by
  unfold recordCLSIssue
  rw [if_pos]
  rw [List.any_eq_true]
  obtain ⟨j, hj, hje, hjt⟩ := h
  exact ⟨j, hj, by simp [hje, hjt]⟩

theorem recordINPIssue_of_dup (issues : List INPIssue) (i : INPIssue)
    (h : ∃ j ∈ issues, j.element = i.element ∧ j.type = i.type) :
    recordINPIssue issues i = issues := by
  unfold recordINPIssue
  rw [if_pos]
  rw [List.any_eq_true]
  obtain ⟨j, hj, hje, hjt⟩ := h
  exact ⟨j, hj, by simp [hje, hjt]⟩

theorem recordCLSIssue_noDup (issues : List CLSIssue) (i : CLSIssue)
    (h : clsNoDup issues) : clsNoDup (recordCLSIssue issues i) := by
  unfold recordCLSIssue
  split
  · exact h
  · rename_i hany
    rw [clsNoDup, List.pairwise_append]
    refine ⟨h, by simp, ?_⟩
    intro a ha b hb
    simp only [List.mem_singleton] at hb
    subst hb
    intro hab
    apply hany
    rw [List.any_eq_true]
    exact ⟨a, ha, by simp [hab.1, hab.2]⟩

theorem recordINPIssue_noDup (issues : List INPIssue) (i : INPIssue)
    (h : inpNoDup issues) : inpNoDup (recordINPIssue issues i) := by
  unfold recordINPIssue
  split
  · exact h
  · rename_i hany
    rw [inpNoDup, List.pairwise_append]
    refine ⟨h, by simp, ?_⟩
    intro a ha b hb
    simp only [List.mem_singleton] at hb
    subst hb
    intro hab
    apply hany
    rw [List.any_eq_true]
    exact ⟨a, ha, by simp [hab.1, hab.2]⟩

theorem processCLSMetric_issues_shape (opts : CLSOptions)
    (classify : LayoutShiftAttribution → CLSIssueType)
    (s : CLSStateM) (m : CLSMetric) :
    (processCLSMetric opts classify s m).issues = s.issues ∨
      ∃ i, (processCLSMetric opts classify s m).issues =
        recordCLSIssue s.issues i := by
  cases h : largestShiftOf m.entries with
  | none => left; simp [processCLSMetric, h]
  | some ls =>
      by_cases hd : opts.detectIssues = true
      · cases hs : ls.sources with
        | nil => left; simp [processCLSMetric, h, hd, hs]
        | cons src rest =>
            right
            refine ⟨{ type := classify src
                      element := src.node
                      contribution := ls.value
                      suggestion := getCLSSuggestion (classify src) src.node
                      timestamp := ls.startTime }, ?_⟩
            simp [processCLSMetric, h, hd, hs]
      · left; simp [processCLSMetric, h, hd]

theorem processINPMetric_issues_shape (opts : INPOptions) (s : INPStateM)
    (m : INPMetric) (nonce : String) :
    (processINPMetric opts s m nonce).issues = s.issues ∨
      ∃ i, (processINPMetric opts s m nonce).issues =
        recordINPIssue s.issues i := by
  cases h : longestEntry m.entries with
  | none => left; simp [processINPMetric, h]
  | some e =>
      by_cases hg : opts.detectIssues = true ∧
          (mkInteraction e nonce).latency > opts.threshold
      · cases hd : detectIssueType opts (mkInteraction e nonce) with
        | none => left; simp [processINPMetric, h, hg, hd]
        | some it =>
            right
            refine ⟨{ type := it
                      element := (mkInteraction e nonce).target
                      contribution := (mkInteraction e nonce).latency
                      phase := issuePhaseOf (mkInteraction e nonce).phases
                      suggestion := getSuggestionForIssue it
                        (mkInteraction e nonce).target none
                      timestamp := (mkInteraction e nonce).startTime }, ?_⟩
            simp [processINPMetric, h, hg, hd]
      · left; simp [processINPMetric, h, hg]

theorem clsRun_noDup (opts : CLSOptions)
    (classify : LayoutShiftAttribution → CLSIssueType) (ops : List CLSOp) :
    clsNoDup ((clsRun opts classify ops).issues) := by
  unfold clsRun
  suffices h : ∀ (ops : List CLSOp) (s : CLSStateM), clsNoDup s.issues →
      clsNoDup ((ops.foldl
        (fun s op =>
          match op with
          | CLSOp.metric m => processCLSMetric opts classify s m
          | CLSOp.reset => initialCLSState) s).issues) by
    exact h ops initialCLSState (by simp [initialCLSState, clsNoDup])
  intro ops
  induction ops with
  | nil => intro s hs; exact hs
  | cons op ops ih =>
      intro s hs
      rw [List.foldl_cons]
      apply ih
      cases op with
      | metric m =>
          rcases processCLSMetric_issues_shape opts classify s m with heq | ⟨i, heq⟩
          · rw [clsNoDup, heq]; exact hs
          · rw [clsNoDup, heq]; exact recordCLSIssue_noDup s.issues i hs
      | reset => simp [initialCLSState, clsNoDup]

theorem inpRun_noDup (opts : INPOptions) (ops : List INPOp) :
    inpNoDup ((inpRun opts ops).issues) := by
  unfold inpRun
  suffices h : ∀ (ops : List INPOp) (s : INPStateM), inpNoDup s.issues →
      inpNoDup ((ops.foldl
        (fun s op =>
          match op with
          | INPOp.metric m nonce => processINPMetric opts s m nonce
          | INPOp.record latency target t now nonce =>
              recordInteractionManual s latency target t now nonce
          | INPOp.reset => initialINPState) s).issues) by
    exact h ops initialINPState (by simp [initialINPState, inpNoDup])
  intro ops
  induction ops with
  | nil => intro s hs; exact hs
  | cons op ops ih =>
      intro s hs
      rw [List.foldl_cons]
      apply ih
      cases op with
      | metric m nonce =>
          rcases processINPMetric_issues_shape opts s m nonce with heq | ⟨i, heq⟩
          · rw [inpNoDup, heq]; exact hs
          · rw [inpNoDup, heq]; exact recordINPIssue_noDup s.issues i hs
      | record latency target t now nonce => exact hs
      | reset => simp [initialINPState, inpNoDup]

/-! ## Helper lemmas about the aggregate statistics -/

theorem processINPMetric_goodPct (opts : INPOptions) (s : INPStateM)
    (m : INPMetric) (nonce : String) :
    (processINPMetric opts s m nonce).goodInteractionPercentage =
      goodPctFormula ((processINPMetric opts s m nonce).interactions) := rfl

theorem processINPMetric_count (opts : INPOptions) (s : INPStateM)
    (m : INPMetric) (nonce : String) :
    (processINPMetric opts s m nonce).interactionCount =
      (processINPMetric opts s m nonce).interactions.length := rfl

theorem goodPctFormula_bounds (l : List INPInteraction) :
    0 ≤ goodPctFormula l ∧ goodPctFormula l ≤ 100 ∧
      (l.length = 0 → goodPctFormula l = 100) := by
  unfold goodPctFormula
  by_cases h : l.length > 0
  · rw [if_pos h]
    have hc : (0 : ℚ) < (l.length : ℚ) := by exact_mod_cast h
    have hle : ((l.filter (fun i => decide (i.latency ≤ 200))).length : ℚ) ≤
        (l.length : ℚ) := by
      exact_mod_cast List.length_filter_le _ l
    have hnn : (0 : ℚ) ≤
        ((l.filter (fun i => decide (i.latency ≤ 200))).length : ℚ) := by
      positivity
    have hdiv1 : ((l.filter (fun i => decide (i.latency ≤ 200))).length : ℚ) /
        (l.length : ℚ) ≤ 1 := by
      rw [div_le_one hc]
      exact hle
    have hdiv0 : (0 : ℚ) ≤
        ((l.filter (fun i => decide (i.latency ≤ 200))).length : ℚ) /
          (l.length : ℚ) := by positivity
    refine ⟨by positivity, ?_, ?_⟩
    · nlinarith
    · intro h0
      omega
  · rw [if_neg h]
    exact ⟨by norm_num, by norm_num, fun _ => rfl⟩

theorem specWindowsAux_noInput (l : List LayoutShiftEntry)
    (h : ∀ e ∈ l, e.hadRecentInput = false) (w : CLSSessionWindow)
    (hw : ∀ e ∈ w.entries, e.hadRecentInput = false) :
    ∀ w2 ∈ specWindowsAux w l, ∀ e ∈ w2.entries, e.hadRecentInput = false := by
  induction l generalizing w with
  | nil =>
      intro w2 hw2
      simp only [specWindowsAux, List.mem_singleton] at hw2
      subst hw2
      exact hw
  | cons e l ih =>
      have he : e.hadRecentInput = false := h e (by simp)
      have hl : ∀ x ∈ l, x.hadRecentInput = false :=
        fun x hx => h x (by simp [hx])
      intro w2 hw2
      unfold specWindowsAux at hw2
      by_cases hc : e.startTime - w.endTime > 1000 ∨
          e.startTime - w.startTime > 5000
      · rw [if_pos hc] at hw2
        rcases List.mem_cons.mp hw2 with rfl | hw2'
        · exact hw
        · refine ih hl (openWindow e) ?_ w2 hw2'
          intro x hx
          simp only [openWindow, List.mem_singleton] at hx
          subst hx
          exact he
      · rw [if_neg hc] at hw2
        refine ih hl _ ?_ w2 hw2
        intro x hx
        simp only [List.mem_append, List.mem_singleton] at hx
        rcases hx with hx' | rfl
        · exact hw x hx'
        · exact he

theorem buildSessionWindows_noInput (l : List LayoutShiftEntry) :
    ∀ w ∈ buildSessionWindows l, ∀ e ∈ w.entries, e.hadRecentInput = false := by
  rw [buildSessionWindows_eq_spec]
  unfold sessionWindowsSpec
  cases hf : l.filter (fun e => !e.hadRecentInput) with
  | nil => simp
  | cons e rest =>
      have hmem : ∀ x ∈ e :: rest, x.hadRecentInput = false := by
        intro x hx
        have hx' : x ∈ l.filter (fun e => !e.hadRecentInput) := by
          rw [hf]; exact hx
        simpa using (List.mem_filter.mp hx').2
      refine specWindowsAux_noInput rest
        (fun x hx => hmem x (by simp [hx])) (openWindow e) ?_
      intro x hx
      simp only [openWindow, List.mem_singleton] at hx
      subst hx
      exact hmem _ (by simp)

/-! ## Claim theorems -/

/-- Claim C1, counterexample: the callback overwrites the stored sample
history with the delivered batch, so after a second callback the exposed
session windows differ from the aggregator applied to the concatenation of
all samples seen so far (here the two batches would form two windows, but
the snapshot only holds the one window of the second batch). -/
theorem claim_C1_counterexample :
    (processCLSMetric defaultCLSOptions (fun _ => CLSIssueType.dynamicContent)
      (processCLSMetric defaultCLSOptions (fun _ => CLSIssueType.dynamicContent)
        initialCLSState { value := 1, entries := [shiftEarly] })
      { value := 3, entries := [shiftLate] }).sessionWindows ≠
    buildSessionWindows ([shiftEarly] ++ [shiftLate]) := by
  norm_num [processCLSMetric, buildSessionWindows, sessionStep, closeFinal,
    openWindow, shiftEarly, shiftLate, defaultCLSOptions, initialCLSState,
    largestShiftOf, largestWindow, maxByQ, pickMaxBy, recordCLSIssue,
    getCLSRating]

/-- Claim C1, amended: every metric-stabilization callback derives the
exposed session windows solely from the batch of entries delivered with
that callback; the stored entry history is replaced by that batch rather
than extended, so after any two callbacks the windows equal the aggregator
applied to the second batch alone. -/
theorem claim_C1_amended :
    ∀ (opts : CLSOptions) (classify : LayoutShiftAttribution → CLSIssueType)
      (s : CLSStateM) (m1 m2 : CLSMetric),
      (processCLSMetric opts classify (processCLSMetric opts classify s m1)
          m2).sessionWindows = buildSessionWindows m2.entries ∧
      (processCLSMetric opts classify s m2).entries = m2.entries ∧
      (processCLSMetric opts classify s m2).sessionWindows =
        buildSessionWindows m2.entries :=
  fun _ _ _ _ _ => ⟨rfl, rfl, rfl⟩

/-- Claim C2: the aggregator ignores samples with hadRecentInput (they
never start or extend a window), and it agrees with the spec-side
transcription of the grouping rule, which closes the current window and
opens a new one exactly when gap > 1000 or duration > 5000 and otherwise
extends it (adding the value, appending the entry, advancing endTime);
two non-input samples at startTime 100 and 1300 yield two separate
windows. -/
theorem claim_C2_grouping_rule :
    (∀ l, buildSessionWindows l =
      buildSessionWindows (l.filter (fun e => !e.hadRecentInput))) ∧
    (∀ l, buildSessionWindows l = sessionWindowsSpec l) ∧
    buildSessionWindows [sampleAt100, sampleAt1300] =
      [{ value := 1/20, entries := [sampleAt100], startTime := 100,
         endTime := 100 },
       { value := 1/10, entries := [sampleAt1300], startTime := 1300,
         endTime := 1300 }] := by
  refine ⟨fun l => (buildSessionWindows_filter l).symm,
    buildSessionWindows_eq_spec, ?_⟩
  norm_num [buildSessionWindows, sessionStep, closeFinal, openWindow,
    sampleAt100, sampleAt1300]

/-- Claim C3: for every list of shift samples, the sum of the values of
the produced session windows equals the sum of the values of the samples
with hadRecentInput false, and no produced window contains an input-driven
sample. -/
theorem claim_C3_value_conservation :
    (∀ l : List LayoutShiftEntry,
      ((buildSessionWindows l).map (fun w => w.value)).sum =
        ((l.filter (fun e => !e.hadRecentInput)).map (fun e => e.value)).sum) ∧
    (∀ l : List LayoutShiftEntry, ∀ w ∈ buildSessionWindows l,
      ∀ e ∈ w.entries, e.hadRecentInput = false) :=
  ⟨buildSessionWindows_value_sum, buildSessionWindows_noInput⟩

/-- Claim C3, witness: on a batch containing an input-driven sample, the
window sum equals the non-input sum and the single produced window holds
only non-input samples. -/
theorem claim_C3_witness :
    ((buildSessionWindows [inputShift, smallShift]).map
      (fun w => w.value)).sum =
      (([inputShift, smallShift].filter
        (fun e => !e.hadRecentInput)).map (fun e => e.value)).sum ∧
    ∀ e ∈ (openWindow smallShift).entries, e.hadRecentInput = false :=
  ⟨claim_C3_value_conservation.1 [inputShift, smallShift],
   claim_C3_value_conservation.2 [inputShift, smallShift]
     (openWindow smallShift)
     (by norm_num [buildSessionWindows, sessionStep, closeFinal, openWindow,
       inputShift, smallShift])⟩

/-- Claim C4: the phase breakdown is computed exactly as inputDelay =
processingStart - startTime, processingDuration = processingEnd -
processingStart, presentationDelay = duration - (processingEnd -
startTime), with no clamping (a negative presentationDelay is reproduced);
the sample timing 100/120/220/200 yields 20/100/80, and the interaction
record carries exactly this breakdown. -/
theorem claim_C4_phase_breakdown :
    (∀ e : PerformanceEventTiming,
      (computePhases e).inputDelay = e.processingStart - e.startTime ∧
      (computePhases e).processingDuration =
        e.processingEnd - e.processingStart ∧
      (computePhases e).presentationDelay =
        e.duration - (e.processingEnd - e.startTime)) ∧
    (∀ (e : PerformanceEventTiming) (nonce : String),
      (mkInteraction e nonce).phases = computePhases e) ∧
    computePhases specScenarioTiming =
      { inputDelay := 20, processingDuration := 100,
        presentationDelay := 80 } ∧
    computePhases inconsistentTiming =
      { inputDelay := 0, processingDuration := 150,
        presentationDelay := -50 } := by
  refine ⟨fun e => ⟨rfl, rfl, rfl⟩, fun e nonce => rfl, ?_, ?_⟩ <;>
    norm_num [computePhases, specScenarioTiming, inconsistentTiming,
      INPPhaseBreakdown.mk.injEq]

/-- Claim C5: the interaction issue classifier agrees with the
transcription of the specified first-match decision order (input delay
above the long-task threshold, then processing above 60 percent of the
latency threshold split on an expensive third-party script, then
presentation above 40 percent, else no issue), the default thresholds are
200 ms and 50 ms, and a callback whose longest entry does not exceed the
latency threshold leaves the issue list untouched. -/
theorem claim_C5_issue_decision_order :
    (∀ opts i, detectIssueType opts i = detectIssueTypeClaim opts i) ∧
    defaultINPOptions.threshold = 200 ∧
    defaultINPOptions.longTaskThreshold = 50 ∧
    (∀ opts s m nonce,
      (∀ e, longestEntry m.entries = some e → e.duration ≤ opts.threshold) →
      (processINPMetric opts s m nonce).issues = s.issues) := by
  refine ⟨?_, rfl, rfl, ?_⟩
  · intro opts i
    have h6 : (60/100 : ℚ) * opts.threshold = opts.threshold * (6/10) := by
      ring
    have h4 : (40/100 : ℚ) * opts.threshold = opts.threshold * (4/10) := by
      ring
    unfold detectIssueType detectIssueTypeClaim
    simp only [h6, h4]
  · intro opts s m nonce hle
    cases h : longestEntry m.entries with
    | none => simp [processINPMetric, h]
    | some e =>
        have hd : ¬(opts.detectIssues = true ∧
            (mkInteraction e nonce).latency > opts.threshold) := by
          intro hc
          exact absurd hc.2 (not_lt.mpr (hle e h))
        simp [processINPMetric, h, hd]

/-- Claim C5, witness: a callback whose single entry has duration 100
(below the default 200 ms threshold) records no issue. -/
theorem claim_C5_witness :
    (processINPMetric defaultINPOptions initialINPState
      { value := 100, entries := [fastEntry] } "n").issues =
      initialINPState.issues :=
  claim_C5_issue_decision_order.2.2.2 defaultINPOptions initialINPState
    { value := 100, entries := [fastEntry] } "n"
    (by
      intro e he
      have h1 : longestEntry [fastEntry] = some fastEntry := rfl
      rw [h1, Option.some.injEq] at he
      subst he
      norm_num [fastEntry, defaultINPOptions])

/-- Claim C6: issue lists never hold two entries with equal (element,
category) pairs in any reachable state of either engine, recording a
duplicate pair leaves the list unchanged, and one processed callback
either leaves the issue list as is or appends exactly one issue (removal
happens only through reset, which both run functions include). -/
theorem claim_C6_issue_dedup :
    (∀ opts classify ops, clsNoDup ((clsRun opts classify ops).issues)) ∧
    (∀ opts ops, inpNoDup ((inpRun opts ops).issues)) ∧
    (∀ issues i, (∃ j ∈ issues, j.element = i.element ∧ j.type = i.type) →
      recordCLSIssue issues i = issues) ∧
    (∀ issues i, (∃ j ∈ issues, j.element = i.element ∧ j.type = i.type) →
      recordINPIssue issues i = issues) ∧
    (∀ opts classify s m,
      (processCLSMetric opts classify s m).issues = s.issues ∨
      ∃ i, (processCLSMetric opts classify s m).issues = s.issues ++ [i]) ∧
    (∀ opts s m nonce,
      (processINPMetric opts s m nonce).issues = s.issues ∨
      ∃ i, (processINPMetric opts s m nonce).issues = s.issues ++ [i]) := by
  refine ⟨clsRun_noDup, inpRun_noDup, recordCLSIssue_of_dup,
    recordINPIssue_of_dup, ?_, ?_⟩
  · intro opts classify s m
    rcases processCLSMetric_issues_shape opts classify s m with heq | ⟨i, heq⟩
    · exact Or.inl heq
    · rcases recordCLSIssue_eq_or_append s.issues i with hr | hr
      · exact Or.inl (heq.trans hr)
      · exact Or.inr ⟨i, heq.trans hr⟩
  · intro opts s m nonce
    rcases processINPMetric_issues_shape opts s m nonce with heq | ⟨i, heq⟩
    · exact Or.inl heq
    · rcases recordINPIssue_eq_or_append s.issues i with hr | hr
      · exact Or.inl (heq.trans hr)
      · exact Or.inr ⟨i, heq.trans hr⟩

/-- Claim C6, witness: recording an issue whose (element, category) pair
is already tracked leaves both issue lists unchanged. -/
theorem claim_C6_witness :
    recordCLSIssue [dupCLSIssue] dupCLSIssue = [dupCLSIssue] ∧
    recordINPIssue [dupINPIssue] dupINPIssue = [dupINPIssue] :=
  ⟨claim_C6_issue_dedup.2.2.1 [dupCLSIssue] dupCLSIssue
      ⟨dupCLSIssue, by simp, rfl, rfl⟩,
   claim_C6_issue_dedup.2.2.2.1 [dupINPIssue] dupINPIssue
      ⟨dupINPIssue, by simp, rfl, rfl⟩⟩

/-- Claim C7, counterexample: the largest shift of the snapshot is taken
over all delivered samples with no hadRecentInput filter, so a batch whose
maximal value belongs to an input-driven sample reports that sample (value
0.5, hadRecentInput true) rather than the largest non-input sample (value
0.1). -/
theorem claim_C7_counterexample :
    (processCLSMetric defaultCLSOptions (fun _ => CLSIssueType.dynamicContent)
      initialCLSState
      { value := 1/2, entries := [inputShift, smallShift] }).largestShift =
        some inputShift ∧
    inputShift.hadRecentInput = true ∧
    (processCLSMetric defaultCLSOptions (fun _ => CLSIssueType.dynamicContent)
      initialCLSState
      { value := 1/2, entries := [inputShift, smallShift] }).largestShift ≠
        some smallShift := by
  refine ⟨?_, rfl, ?_⟩ <;>
    norm_num [processCLSMetric, buildSessionWindows, sessionStep, closeFinal,
      openWindow, inputShift, smallShift, defaultCLSOptions, initialCLSState,
      largestShiftOf, largestWindow, maxByQ, pickMaxBy, recordCLSIssue,
      getCLSRating, LayoutShiftEntry.mk.injEq]

/-- Claim C7, amended: the largest single shift of each snapshot is the
maximum by value over all samples of the delivered batch, including those
with hadRecentInput true (first of equals wins); for the non-input batch
with values 0.05 and 0.10 the reported largest value is 0.10 and the
single session window has value 0.15. -/
theorem claim_C7_amended :
    (∀ opts classify s m,
      (processCLSMetric opts classify s m).largestShift =
        largestShiftOf m.entries) ∧
    (∀ (l : List LayoutShiftEntry) (m : LayoutShiftEntry),
      largestShiftOf l = some m → m ∈ l ∧ ∀ e ∈ l, e.value ≤ m.value) ∧
    (largestShiftOf [sampleAt1000, sampleAt1500]).map (fun e => e.value) =
      some (1/10) ∧
    (buildSessionWindows [sampleAt1000, sampleAt1500]).map
      (fun w => w.value) = [3/20] := by
  refine ⟨fun _ _ _ _ => rfl, fun l m => maxByQ_spec _ l m, ?_, ?_⟩
  · norm_num [largestShiftOf, maxByQ, pickMaxBy, sampleAt1000, sampleAt1500]
  · norm_num [buildSessionWindows, sessionStep, closeFinal, openWindow,
      sampleAt1000, sampleAt1500]

/-- Claim C7, amended witness: the max-property instantiated on the
scenario batch. -/
theorem claim_C7_witness :
    sampleAt1500 ∈ [sampleAt1000, sampleAt1500] ∧
    ∀ e ∈ [sampleAt1000, sampleAt1500], e.value ≤ sampleAt1500.value :=
  claim_C7_amended.2.1 [sampleAt1000, sampleAt1500] sampleAt1500
    (by norm_num [largestShiftOf, maxByQ, pickMaxBy, sampleAt1000,
      sampleAt1500, LayoutShiftEntry.mk.injEq])

/-- Claim C8: after any processed callback the good-interaction
percentage lies in [0, 100] and equals 100 whenever the interaction count
is 0; the initial snapshot and the snapshot right after reset carry 100. -/
theorem claim_C8_good_percentage :
    (∀ opts s m nonce,
      0 ≤ (processINPMetric opts s m nonce).goodInteractionPercentage ∧
      (processINPMetric opts s m nonce).goodInteractionPercentage ≤ 100 ∧
      ((processINPMetric opts s m nonce).interactionCount = 0 →
        (processINPMetric opts s m nonce).goodInteractionPercentage = 100)) ∧
    initialINPState.goodInteractionPercentage = 100 ∧
    (inpRun defaultINPOptions [INPOp.reset]).goodInteractionPercentage =
      100 := by
  refine ⟨?_, rfl, rfl⟩
  intro opts s m nonce
  have h := goodPctFormula_bounds ((processINPMetric opts s m nonce).interactions)
  rw [processINPMetric_goodPct]
  refine ⟨h.1, h.2.1, ?_⟩
  intro h0
  apply h.2.2
  rw [← processINPMetric_count]
  exact h0

/-- Claim C8, witness: a callback with no entries on the initial state
keeps the count at 0 and the percentage at 100. -/
theorem claim_C8_witness :
    (processINPMetric defaultINPOptions initialINPState
      { value := 0, entries := [] } "n").goodInteractionPercentage = 100 :=
  (claim_C8_good_percentage.1 defaultINPOptions initialINPState
    { value := 0, entries := [] } "n").2.2 rfl

/-- Claim C9: every interaction record built by the metric callback has an
empty scripts list, so the classifier can never return the third-party
category for it, and whenever processing exceeds 60 percent of the latency
threshold while input delay does not exceed the long-task threshold the
category is heavy-event-handler. -/
theorem claim_C9_scripts_empty :
    (∀ (e : PerformanceEventTiming) (nonce : String),
      (mkInteraction e nonce).scripts = []) ∧
    (∀ opts i, i.scripts = [] →
      detectIssueType opts i ≠ some INPIssueType.thirdPartyScript) ∧
    (∀ opts i, i.scripts = [] →
      ¬(i.phases.inputDelay > opts.longTaskThreshold) →
      i.phases.processingDuration > opts.threshold * (6/10) →
      detectIssueType opts i = some INPIssueType.heavyEventHandler) := by
  refine ⟨fun e nonce => rfl, ?_, ?_⟩
  · intro opts i hs
    unfold detectIssueType
    simp only [hs, List.any_nil]
    split_ifs <;> simp_all
  · intro opts i hs h1 h2
    unfold detectIssueType
    rw [if_neg h1, if_pos h2]
    simp [hs]

/-- Claim C9, witness: the heavy-processing branch classifies the sample
interaction (empty scripts, input delay 10, processing 250) as a heavy
event handler under the default options. -/
theorem claim_C9_witness :
    detectIssueType defaultINPOptions heavyInteraction =
      some INPIssueType.heavyEventHandler :=
  claim_C9_scripts_empty.2.2 defaultINPOptions heavyInteraction rfl
    (by norm_num [heavyInteraction, defaultINPOptions])
    (by norm_num [heavyInteraction, defaultINPOptions])

/-- Claim C10: an interaction derived from the metric callback is appended
to the history exactly when its latency (the longest entry duration)
reaches the minInteractionLatency option, whose default is 40 ms;
below-cutoff interactions leave the history unchanged. -/
theorem claim_C10_min_latency_filter :
    defaultINPOptions.minInteractionLatency = 40 ∧
    (∀ opts s m nonce e, longestEntry m.entries = some e →
      ((opts.minInteractionLatency ≤ e.duration →
        (processINPMetric opts s m nonce).interactions =
          s.interactions ++ [mkInteraction e nonce]) ∧
       (e.duration < opts.minInteractionLatency →
        (processINPMetric opts s m nonce).interactions =
          s.interactions))) := by
  refine ⟨rfl, ?_⟩
  intro opts s m nonce e h
  constructor
  · intro hge
    simp only [processINPMetric, h]
    rw [if_pos (show (mkInteraction e nonce).latency ≥
      opts.minInteractionLatency from hge)]
  · intro hlt
    simp only [processINPMetric, h]
    rw [if_neg (show ¬(mkInteraction e nonce).latency ≥
      opts.minInteractionLatency from not_le.mpr hlt)]

/-- Claim C10, witness: with the default options, a 30 ms entry is
dropped from the history while a 100 ms entry is appended. -/
theorem claim_C10_witness :
    (processINPMetric defaultINPOptions initialINPState
      { value := 100, entries := [tinyEntry] } "n").interactions =
      initialINPState.interactions ∧
    (processINPMetric defaultINPOptions initialINPState
      { value := 100, entries := [fastEntry] } "n").interactions =
      initialINPState.interactions ++ [mkInteraction fastEntry "n"] :=
  ⟨(claim_C10_min_latency_filter.2 defaultINPOptions initialINPState
      { value := 100, entries := [tinyEntry] } "n" tinyEntry rfl).2
      (by norm_num [tinyEntry, defaultINPOptions]),
   (claim_C10_min_latency_filter.2 defaultINPOptions initialINPState
      { value := 100, entries := [fastEntry] } "n" fastEntry rfl).1
      (by norm_num [fastEntry, defaultINPOptions])⟩

end PageSpeed
